import Mathlib

/-!
Shallow embedding of the recruiter evaluation tool (store layer in
src/data.py, presentation/aggregation layer in src/tab_interview.py).

The SQLite database is modelled as lists of rows, one list per table of
the schema created by init_db.  Row order in each list is rowid
(insertion) order, which is the order SQLite returns rows in for the
plain SELECT statements of data.py that carry no ORDER BY clause.
REAL values are modelled as rationals.  uuid.uuid4() is modelled as a
fresh-identifier supply carried in the state (a counter), and the
AUTOINCREMENT id of the scores table as a second counter.
-/

/-- Row of the sessions table (init_db): id PK, name NOT NULL, then
optional interviewer, date, notes columns. -/
structure Session where
  id : String
  name : String
  interviewer : Option String
  date : Option String
  notes : Option String
deriving DecidableEq, Repr

/-- Row of the candidates table (init_db): id PK, session_id FK to
sessions, name, then optional contact and experience columns. -/
structure Candidate where
  id : String
  session_id : String
  name : String
  email : Option String
  phone : Option String
  position : Option String
  experience_years : Option Nat
  notes : Option String
deriving DecidableEq, Repr

/-- Row of the scores table (init_db): INTEGER PRIMARY KEY AUTOINCREMENT,
candidate_id FK to candidates, metric NOT NULL, value NOT NULL. -/
structure Score where
  id : Nat
  candidate_id : String
  metric : String
  value : ℚ
deriving DecidableEq, Repr

/-- The whole database plus the two identifier supplies: nextUuid models
uuid.uuid4() as a deterministic fresh-string source, nextScoreId models
the AUTOINCREMENT counter of the scores table. -/
structure DB where
  sessions : List Session
  candidates : List Candidate
  scores : List Score
  nextUuid : Nat
  nextScoreId : Nat
deriving DecidableEq, Repr

/-- Fresh identifier, standing in for str(uuid.uuid4()). -/
def freshUuid (db : DB) : String := "uuid-" ++ toString db.nextUuid

/-- A database with all three tables empty, as produced by init_db on a
fresh file. -/
def emptyDB : DB :=
  { sessions := [], candidates := [], scores := [], nextUuid := 0, nextScoreId := 0 }

/-- data.create_session: generates a uuid, INSERTs the row, returns the
id.  Note the function body contains no validation of the name. -/
def create_session (db : DB) (name : String)
    (interviewer date notes : Option String) : String × DB :=
  let sid := freshUuid db
  (sid,
    { db with
      sessions := db.sessions ++
        [{ id := sid, name := name, interviewer := interviewer,
           date := date, notes := notes }]
      nextUuid := db.nextUuid + 1 })

/-- SQLite ordering of the TEXT date column for ORDER BY ... DESC:
NULL sorts below every string, strings compare lexicographically. -/
def sqliteDateLe : Option String → Option String → Bool
  | none, _ => true
  | some _, none => false
  | some a, some b => decide (a ≤ b)

/-- data.list_sessions: SELECT * FROM sessions ORDER BY date DESC. -/
def list_sessions (db : DB) : List Session :=
  db.sessions.mergeSort (fun a b => sqliteDateLe b.date a.date)

/-- data.add_candidate: generates a uuid and INSERTs the row, returning
the id.  No check whatsoever is made that session_id exists. -/
def add_candidate (db : DB) (session_id name : String)
    (email phone position : Option String) (experience_years : Option Nat)
    (notes : Option String) : String × DB :=
  let cid := freshUuid db
  (cid,
    { db with
      candidates := db.candidates ++
        [{ id := cid, session_id := session_id, name := name, email := email,
           phone := phone, position := position,
           experience_years := experience_years, notes := notes }]
      nextUuid := db.nextUuid + 1 })

/-- data.list_candidates: SELECT * FROM candidates WHERE session_id = ?. -/
def list_candidates (db : DB) (session_id : String) : List Candidate :=
  db.candidates.filter (fun c => c.session_id == session_id)

/-- data.add_score: INSERT INTO scores (candidate_id, metric, value). -/
def add_score (db : DB) (candidate_id metric : String) (value : ℚ) : DB :=
  { db with
    scores := db.scores ++
      [{ id := db.nextScoreId, candidate_id := candidate_id,
         metric := metric, value := value }]
    nextScoreId := db.nextScoreId + 1 }

/-- data.get_scores_for_candidate: SELECT metric, value FROM scores
WHERE candidate_id = ?. -/
def get_scores_for_candidate (db : DB) (candidate_id : String) :
    List (String × ℚ) :=
  (db.scores.filter (fun s => s.candidate_id == candidate_id)).map
    (fun s => (s.metric, s.value))

/-- data.delete_candidate_scores: DELETE FROM scores WHERE
candidate_id = ?. -/
def delete_candidate_scores (db : DB) (candidate_id : String) : DB :=
  { db with scores := db.scores.filter (fun s => !(s.candidate_id == candidate_id)) }

/-- data.update_candidate_notes: UPDATE candidates SET notes = ?
WHERE id = ?. -/
def update_candidate_notes (db : DB) (candidate_id notes : String) : DB :=
  { db with
    candidates := db.candidates.map
      (fun c => if c.id == candidate_id then { c with notes := some notes } else c) }

/-- data.get_candidate_by_id: SELECT * ... fetchone, i.e. the first
matching row or none. -/
def get_candidate_by_id (db : DB) (candidate_id : String) : Option Candidate :=
  db.candidates.find? (fun c => c.id == candidate_id)

/-- Arithmetic mean of a list of rationals, the meaning of SQL AVG over
the (all non-NULL) values of a group. -/
def ratMean (vs : List ℚ) : ℚ := vs.sum / (vs.length : ℚ)

/-- Output row shape of data.get_aggregate_scores: candidate_id, name,
metric and avg_value; metric and avg_value are NULL for a candidate the
LEFT JOIN matched with no score row. -/
structure AggRow where
  candidate_id : String
  name : String
  metric : Option String
  avg_value : Option ℚ
deriving DecidableEq, Repr

/-- Rows data.get_aggregate_scores produces for one candidate of the
selected session: the LEFT JOIN pairs the candidate with each of its
score rows, or with a single all-NULL score if it has none; GROUP BY
c.id, s.metric then forms one group per distinct metric of that
candidate (a single NULL-metric group when there are no scores), and
AVG(s.value) is the mean of the group's values (NULL for the NULL
group). -/
def aggRowsFor (db : DB) (c : Candidate) : List AggRow :=
  let srows := db.scores.filter (fun s => s.candidate_id == c.id)
  if srows.isEmpty then
    [{ candidate_id := c.id, name := c.name, metric := none, avg_value := none }]
  else
    ((srows.map (fun s => s.metric)).dedup).map
      (fun m =>
        { candidate_id := c.id, name := c.name, metric := some m,
          avg_value := some (ratMean
            ((srows.filter (fun s => s.metric == m)).map (fun s => s.value))) })

/-- data.get_aggregate_scores: SELECT c.id, c.name, s.metric,
AVG(s.value) FROM candidates c LEFT JOIN scores s ON c.id =
s.candidate_id WHERE c.session_id = ? GROUP BY c.id, s.metric. -/
def get_aggregate_scores (db : DB) (session_id : String) : List AggRow :=
  (db.candidates.filter (fun c => c.session_id == session_id)).flatMap
    (aggRowsFor db)

/-- Modelled from the spec and the schema of init_db: the repository has
no session-deletion function, so a session is deleted by running DELETE
FROM sessions WHERE id = ? on a connection from data.get_conn.  The
schema declares candidates.session_id with ON DELETE CASCADE, but SQLite
keeps foreign-key enforcement off unless a connection executes PRAGMA
foreign_keys = ON, and get_conn never does; hence the DELETE removes
only the matching sessions rows and touches neither candidates nor
scores. -/
def delete_session_row (db : DB) (session_id : String) : DB :=
  { db with sessions := db.sessions.filter (fun s => !(s.id == session_id)) }

/-- tab_interview.METRICS, the five fixed rubric metrics. -/
def METRICS : List String :=
  ["Communication", "Technical Skills", "Projects", "Problem Solving", "Culture Fit"]

/-- One step of building a Python dict from (metric, value) pairs: an
existing key keeps its position and gets the new value, a new key is
appended. -/
def dict_insert (d : List (String × ℚ)) (m : String) (v : ℚ) :
    List (String × ℚ) :=
  if d.any (fun p => p.1 == m) then
    d.map (fun p => if p.1 == m then (p.1, v) else p)
  else d ++ [(m, v)]

/-- The Python dict comprehension in show_candidate_evaluation and
_score_candidate, namely a dict keyed by metric built left to right
from the score rows (a duplicated metric keeps its first position and
its last value). -/
def dict_of_scores (scores : List (String × ℚ)) : List (String × ℚ) :=
  scores.foldl (fun d p => dict_insert d p.1 p.2) []

/-- The average computed in show_quick_analytics (line 284):
sum of the values of the raw score rows divided by their number. -/
def quick_average (scores : List (String × ℚ)) : ℚ :=
  ratMean (scores.map (fun p => p.2))

/-- The Average Score cell of show_candidate_evaluation (lines 165-172):
none models the Not evaluated message shown when the candidate has no
score rows; otherwise the mean of the values of the metric-keyed dict
(the inner conditional mirrors the Python expression, whose else branch
yields 0 for an empty dict). -/
def average_cell (scores : List (String × ℚ)) : Option ℚ :=
  if scores.isEmpty then none
  else
    let d := dict_of_scores scores
    some (if d.isEmpty then 0 else ratMean (d.map (fun p => p.2)))

/-- Replaying a list of (metric, value) pairs through data.add_score. -/
def add_scores (db : DB) (candidate_id : String)
    (ps : List (String × ℚ)) : DB :=
  ps.foldl (fun d p => add_score d candidate_id p.1 p.2) db

/-- The replace-all-scores sequence the presentation layer performs:
data.delete_candidate_scores followed by data.add_score per new pair. -/
def replace_all_scores (db : DB) (candidate_id : String)
    (ps : List (String × ℚ)) : DB :=
  add_scores (delete_candidate_scores db candidate_id) candidate_id ps

/-- The save branch of tab_interview._score_candidate (lines 241-255):
delete all existing scores of the candidate, add one score per metric of
METRICS with the slider value, then update the notes when the note text
is non-empty (Python truthiness of the string). -/
def score_candidate_save (db : DB) (candidate_id : String)
    (vals : String → ℚ) (note : String) : DB :=
  let db2 := replace_all_scores db candidate_id
    (METRICS.map (fun m => (m, vals m)))
  if note == "" then db2 else update_candidate_notes db2 candidate_id note

/-- The create-session form handler of show_session_management (lines
47-58): an empty name only reports an error and never calls the store
(none, database unchanged); otherwise data.create_session runs with the
empty-string-to-None normalisations of the call site and the new id is
returned. -/
def session_form_submit (db : DB) (name interviewer dateStr notes : String) :
    Option String × DB :=
  if name == "" then (none, db)
  else
    let r := create_session db name
      (if interviewer == "" then none else some interviewer)
      (some dateStr)
      (if notes == "" then none else some notes)
    (some r.1, r.2)

/-- Semantics of pandas DataFrame.nlargest(n, column) with its default
keep behaviour, the call in show_quick_analytics: the first n rows in
descending order of the column, rows of equal value kept in their
original order (a stable descending sort followed by take n). -/
def nlargest (n : Nat) (rows : List (String × ℚ)) : List (String × ℚ) :=
  (rows.mergeSort (fun a b => decide (b.2 ≤ a.2))).take n

/-- The Top Performers table of show_quick_analytics (line 299):
df.nlargest(3, Average) over (candidate, average) rows. -/
def top_performers (rows : List (String × ℚ)) : List (String × ℚ) :=
  nlargest 3 rows

theorem get_scores_delete_nil (db : DB) (c : String) :
    get_scores_for_candidate (delete_candidate_scores db c) c = [] := by
  simp [get_scores_for_candidate, delete_candidate_scores, List.filter_filter]

theorem get_scores_add_score (db : DB) (c m : String) (v : ℚ) :
    get_scores_for_candidate (add_score db c m v) c =
      get_scores_for_candidate db c ++ [(m, v)] := by
  simp [get_scores_for_candidate, add_score, List.filter_append]

theorem get_scores_add_scores (db : DB) (c : String)
    (ps : List (String × ℚ)) :
    get_scores_for_candidate (add_scores db c ps) c =
      get_scores_for_candidate db c ++ ps := by
  induction ps generalizing db with
  | nil => simp [add_scores]
  | cons p rest ih =>
    have hstep : add_scores db c (p :: rest) =
        add_scores (add_score db c p.1 p.2) c rest := rfl
    rw [hstep, ih, get_scores_add_score]
    simp

theorem get_scores_replace (db : DB) (c : String)
    (ps : List (String × ℚ)) :
    get_scores_for_candidate (replace_all_scores db c ps) c = ps := by
  unfold replace_all_scores
  rw [get_scores_add_scores, get_scores_delete_nil]
  simp

theorem get_scores_update_notes (db : DB) (a b c : String) :
    get_scores_for_candidate (update_candidate_notes db a b) c =
      get_scores_for_candidate db c := rfl

/-- C7: for every candidate c, delete_candidate_scores followed
immediately by get_scores_for_candidate returns the empty sequence,
regardless of how many score rows c had before. -/
theorem delete_then_get_empty (db : DB) (c : String) :
    get_scores_for_candidate (delete_candidate_scores db c) c = [] :=
  get_scores_delete_nil db c

/-- C3: the replace-all-scores sequence, delete_candidate_scores then
add_score for each new pair, makes get_scores_for_candidate return
exactly the new set; in particular replacing A:3, B:7 by A:9 leaves
exactly the row (A, 9), the old metric B gone. -/
theorem replace_scores_exact :
    (∀ (db : DB) (c : String) (ps : List (String × ℚ)),
        get_scores_for_candidate (replace_all_scores db c ps) c = ps) ∧
      get_scores_for_candidate
        (replace_all_scores
          (replace_all_scores emptyDB "c1" [("A", 3), ("B", 7)])
          "c1" [("A", 9)]) "c1" = [("A", 9)] :=
  ⟨get_scores_replace, get_scores_replace _ _ _⟩

/-- C10: after any save of the scoring form, the candidate has exactly
one score row per metric of METRICS in order: exactly five rows, one per
metric, with no duplicate metrics and no extras. -/
theorem save_scores_invariant (db : DB) (cid : String) (vals : String → ℚ)
    (note : String) :
    get_scores_for_candidate (score_candidate_save db cid vals note) cid =
        METRICS.map (fun m => (m, vals m)) ∧
      (get_scores_for_candidate (score_candidate_save db cid vals note) cid).length
          = 5 ∧
      ((get_scores_for_candidate (score_candidate_save db cid vals note) cid).map
          Prod.fst).Nodup := by
  have h : get_scores_for_candidate (score_candidate_save db cid vals note) cid =
      METRICS.map (fun m => (m, vals m)) := by
    unfold score_candidate_save
    by_cases hn : (note == "") = true
    · simp only [hn, if_pos]
      exact get_scores_replace _ _ _
    · simp only [hn, if_neg, Bool.false_eq_true, not_false_iff]
      rw [get_scores_update_notes]
      exact get_scores_replace _ _ _
  refine ⟨h, ?_, ?_⟩
  · rw [h]; rfl
  · rw [h, List.map_map]
    have : (Prod.fst ∘ fun m => (m, vals m)) = id := rfl
    rw [this, List.map_id]
    decide

/-- C1 counterexample: the store performs no name check.  Calling
create_session with the empty string succeeds, stores the empty-named
session and returns a generated identifier, instead of failing with a
ValidationError. -/
theorem create_session_accepts_empty_name :
    create_session emptyDB "" none none none =
      ("uuid-0",
        { sessions := [{ id := "uuid-0", name := "", interviewer := none,
                         date := none, notes := none }],
          candidates := [], scores := [], nextUuid := 1, nextScoreId := 0 }) := rfl

/-- C1 (amended): the empty-name check is enforced by the presentation
layer, not the store.  The create-session form handler reports an error
and leaves the database untouched when the name is empty, and for every
non-empty name it calls create_session, which appends the session and
returns a newly generated identifier distinct from all existing session
ids (collision-freedom of uuid4 is the freshness hypothesis of the
model). -/
theorem session_form_empty_name_check (db : DB)
    (name interviewer dateStr notes : String)
    (hfresh : freshUuid db ∉ db.sessions.map Session.id) :
    (name = "" →
      session_form_submit db name interviewer dateStr notes = (none, db)) ∧
    (name ≠ "" →
      ∃ sid,
        (session_form_submit db name interviewer dateStr notes).1 = some sid ∧
        sid ∉ db.sessions.map Session.id ∧
        (session_form_submit db name interviewer dateStr notes).2.sessions =
          db.sessions ++
            [{ id := sid, name := name,
               interviewer := if interviewer == "" then none else some interviewer,
               date := some dateStr,
               notes := if notes == "" then none else some notes }]) := by
  constructor
  · intro he
    subst he
    rfl
  · intro hne
    refine ⟨freshUuid db, ?_, hfresh, ?_⟩ <;>
      simp [session_form_submit, create_session, hne, freshUuid]

theorem session_form_empty_name_check_witness :
    ∃ sid,
      (session_form_submit emptyDB "S1" "" "2024-05-01" "").1 = some sid ∧
      sid ∉ emptyDB.sessions.map Session.id ∧
      (session_form_submit emptyDB "S1" "" "2024-05-01" "").2.sessions =
        emptyDB.sessions ++
          [{ id := sid, name := "S1", interviewer := none,
             date := some "2024-05-01", notes := none }] := by
  have h := (session_form_empty_name_check emptyDB "S1" "" "2024-05-01" ""
    (by decide)).2 (by decide)
  simpa using h

/-- Database state exercising the cascade: one session s1, one candidate
c1 belonging to it, and one score row for c1. -/
def cascadeDB : DB :=
  { sessions := [{ id := "s1", name := "Round 1", interviewer := none,
                   date := none, notes := none }],
    candidates := [{ id := "c1", session_id := "s1", name := "Jane",
                     email := none, phone := none, position := none,
                     experience_years := none, notes := none }],
    scores := [{ id := 1, candidate_id := "c1",
                 metric := "Communication", value := 8 }],
    nextUuid := 2, nextScoreId := 2 }

/-- C2: deleting session s1 removes only the sessions row.  The
candidate row whose session_id is s1 and its score row both survive,
because the ON DELETE CASCADE declared by init_db is never enforced:
get_conn never enables SQLite foreign-key enforcement, which is off by
default. -/
theorem delete_session_no_cascade :
    (delete_session_row cascadeDB "s1").sessions = [] ∧
      (delete_session_row cascadeDB "s1").candidates = cascadeDB.candidates ∧
      (delete_session_row cascadeDB "s1").scores = cascadeDB.scores ∧
      ∃ c ∈ (delete_session_row cascadeDB "s1").candidates,
        c.session_id = "s1" := by
  refine ⟨rfl, rfl, rfl, ?_⟩
  exact ⟨{ id := "c1", session_id := "s1", name := "Jane", email := none,
           phone := none, position := none, experience_years := none,
           notes := none }, by decide, rfl⟩

/-- C9: add_candidate performs no existence check on session_id.  Even
when no session has that id the insert succeeds, appends the orphaned
candidate row referencing session_id, and returns a newly generated
candidate identifier. -/
theorem add_candidate_orphan_insert (db : DB) (sid name : String)
    (email phone position : Option String) (exp : Option Nat)
    (notes : Option String)
    (h : sid ∉ db.sessions.map Session.id) :
    (add_candidate db sid name email phone position exp notes).2.candidates =
        db.candidates ++
          [{ id := (add_candidate db sid name email phone position exp notes).1,
             session_id := sid, name := name, email := email, phone := phone,
             position := position, experience_years := exp, notes := notes }] ∧
      (add_candidate db sid name email phone position exp notes).1 =
        freshUuid db ∧
      sid ∉
        (add_candidate db sid name email phone position exp notes).2.sessions.map
          Session.id :=
  ⟨rfl, rfl, h⟩

theorem add_candidate_orphan_insert_witness :
    (add_candidate emptyDB "nosuch" "Jane" none none none none none).2.candidates =
        emptyDB.candidates ++
          [{ id := (add_candidate emptyDB "nosuch" "Jane" none none none none none).1,
             session_id := "nosuch", name := "Jane", email := none, phone := none,
             position := none, experience_years := none, notes := none }] ∧
      (add_candidate emptyDB "nosuch" "Jane" none none none none none).1 =
        freshUuid emptyDB ∧
      "nosuch" ∉
        (add_candidate emptyDB "nosuch" "Jane" none none none none none).2.sessions.map
          Session.id :=
  add_candidate_orphan_insert emptyDB "nosuch" "Jane" none none none none none
    (by decide)

theorem dict_insert_fresh (d : List (String × ℚ)) (m : String) (v : ℚ)
    (h : m ∉ d.map Prod.fst) : dict_insert d m v = d ++ [(m, v)] := by
  have hc : d.any (fun p => p.1 == m) = false := by
    rw [List.any_eq_false]
    intro p hp
    simp only [beq_iff_eq]
    intro hpm
    exact h (List.mem_map.mpr ⟨p, hp, hpm⟩)
  unfold dict_insert
  rw [hc]
  simp

theorem foldl_dict_insert (scores : List (String × ℚ)) :
    ∀ d : List (String × ℚ),
      ((d ++ scores).map Prod.fst).Nodup →
      scores.foldl (fun acc p => dict_insert acc p.1 p.2) d = d ++ scores := by
  induction scores with
  | nil =>
    intro d _
    simp
  | cons p rest ih =>
    intro d hnd
    have hm : p.1 ∉ d.map Prod.fst := by
      intro hmem
      have h1 : ((d ++ p :: rest).map Prod.fst).Nodup := hnd
      rw [List.map_append] at h1
      obtain ⟨hl, hr, hdisj⟩ := List.nodup_append.mp h1
      exact hdisj hmem (by simp)
    rw [List.foldl_cons, dict_insert_fresh d p.1 p.2 hm]
    have heq : d ++ [(p.1, p.2)] = d ++ [p] := rfl
    rw [heq, ih (d ++ [p]) (by simpa using hnd)]
    simp

theorem dict_of_scores_nodup (scores : List (String × ℚ))
    (h : (scores.map Prod.fst).Nodup) : dict_of_scores scores = scores := by
  have h2 := foldl_dict_insert scores [] (by simpa using h)
  simpa [dict_of_scores] using h2

/-- C6: overallAverage is the simple arithmetic mean.  On X:4, Y:6 both
code paths yield 5; whenever the score rows carry distinct metric names
(the invariant the scoring form maintains) the evaluation-tab average
cell equals the quick-analytics mean over the raw rows; and on the
empty list the cell is none, i.e. the caller displays Not evaluated
instead of a number. -/
theorem overall_average_spec :
    (average_cell [("X", 4), ("Y", 6)] = some 5 ∧
      quick_average [("X", 4), ("Y", 6)] = 5) ∧
    (∀ scores : List (String × ℚ), scores ≠ [] →
      (scores.map Prod.fst).Nodup →
      average_cell scores = some (quick_average scores)) ∧
    average_cell [] = none := by
  have hgen : ∀ scores : List (String × ℚ), scores ≠ [] →
      (scores.map Prod.fst).Nodup →
      average_cell scores = some (quick_average scores) := by
    intro scores hne hnd
    have h1 : scores.isEmpty = false := by simpa using hne
    simp only [average_cell, quick_average, h1, Bool.false_eq_true, if_false,
      dict_of_scores_nodup scores hnd]
  refine ⟨⟨?_, ?_⟩, hgen, rfl⟩
  · rw [hgen [("X", 4), ("Y", 6)] (by simp) (by decide)]
    norm_num [quick_average, ratMean]
  · norm_num [quick_average, ratMean]

theorem overall_average_spec_witness :
    average_cell [("X", 4), ("Y", 6)] =
      some (quick_average [("X", 4), ("Y", 6)]) :=
  overall_average_spec.2.1 [("X", 4), ("Y", 6)] (by decide)
    (by decide)

theorem sqliteDateLe_trans (x y z : Option String) :
    sqliteDateLe x y = true → sqliteDateLe y z = true →
      sqliteDateLe x z = true := by
  cases x <;> cases y <;> cases z <;> simp [sqliteDateLe]
  exact fun h1 h2 => h1.trans h2

theorem sqliteDateLe_total (x y : Option String) :
    (sqliteDateLe x y || sqliteDateLe y x) = true := by
  cases x <;> cases y <;> simp [sqliteDateLe]
  exact le_total _ _

/-- C8: list_sessions returns every stored session (a permutation of the
sessions table, so nothing is truncated) ordered by date descending,
with NULL dates last, per SQLite ORDER BY date DESC. -/
theorem list_sessions_spec (db : DB) :
    (list_sessions db).Perm db.sessions ∧
      (list_sessions db).Pairwise
        (fun a b => sqliteDateLe b.date a.date = true) := by
  constructor
  · exact List.mergeSort_perm db.sessions _
  · exact List.sorted_mergeSort
      (fun a b c hab hbc => sqliteDateLe_trans c.date b.date a.date hbc hab)
      (fun a b => sqliteDateLe_total b.date a.date)
      db.sessions

theorem avgDescLe_trans (a b c : String × ℚ) :
    decide (b.2 ≤ a.2) = true → decide (c.2 ≤ b.2) = true →
      decide (c.2 ≤ a.2) = true := by
  simp only [decide_eq_true_eq]
  exact fun h1 h2 => h2.trans h1

theorem avgDescLe_total (a b : String × ℚ) :
    (decide (b.2 ≤ a.2) || decide (a.2 ≤ b.2)) = true := by
  simp only [Bool.or_eq_true, decide_eq_true_eq]
  exact (le_total b.2 a.2)

theorem mergeSort_filter_avg (rows : List (String × ℚ)) (v : ℚ) :
    (rows.mergeSort (fun a b => decide (b.2 ≤ a.2))).filter
        (fun r => r.2 == v) =
      rows.filter (fun r => r.2 == v) := by
  set p : String × ℚ → Bool := fun r => r.2 == v with hp
  have hpw : (rows.filter p).Pairwise
      (fun a b : String × ℚ => decide (b.2 ≤ a.2) = true) := by
    apply List.pairwise_of_forall_mem_list
    intro a ha b hb
    have ha2 : a.2 = v := by simpa [hp] using (List.mem_filter.mp ha).2
    have hb2 : b.2 = v := by simpa [hp] using (List.mem_filter.mp hb).2
    simp [ha2, hb2]
  have hsub : (rows.filter p).Sublist
      (rows.mergeSort (fun a b => decide (b.2 ≤ a.2))) :=
    List.sublist_mergeSort (fun a b c => avgDescLe_trans a b c)
      avgDescLe_total hpw (List.filter_sublist rows)
  have hself : (rows.filter p).filter p = rows.filter p := by
    rw [List.filter_eq_self]
    intro a ha
    exact (List.mem_filter.mp ha).2
  have hsub2 : (rows.filter p).Sublist
      ((rows.mergeSort (fun a b => decide (b.2 ≤ a.2))).filter p) := by
    have h1 := List.Sublist.filter p hsub
    rwa [hself] at h1
  have hlen : ((rows.mergeSort (fun a b => decide (b.2 ≤ a.2))).filter p).length
      = (rows.filter p).length :=
    (List.Perm.filter p (List.mergeSort_perm rows _)).length_eq
  exact (List.Sublist.eq_of_length hsub2 hlen.symm).symm

/-- C5: top_performers is nlargest with n fixed at 3; for every n and
input, nlargest returns min n (number of rows) rows, sorted by average
descending, with ties kept in the input's relative order (for each
average value, the returned rows of that value are a prefix of the
input's rows of that value); and on the input Alice 9, Bob 9, Carol 5
with n = 2 it returns Alice then Bob, in that order. -/
theorem top_performers_spec :
    (∀ rows : List (String × ℚ), top_performers rows = nlargest 3 rows) ∧
    (∀ (n : Nat) (rows : List (String × ℚ)),
      (nlargest n rows).length = min n rows.length ∧
      (nlargest n rows).Pairwise (fun a b => b.2 ≤ a.2) ∧
      (∀ v : ℚ, ∃ t, rows.filter (fun r => r.2 == v) =
        (nlargest n rows).filter (fun r => r.2 == v) ++ t)) ∧
    nlargest 2 [("Alice", 9), ("Bob", 9), ("Carol", 5)] =
      [("Alice", 9), ("Bob", 9)] := by
  refine ⟨fun rows => rfl, ?_, ?_⟩
  · intro n rows
    refine ⟨?_, ?_, ?_⟩
    · rw [nlargest, List.length_take, List.length_mergeSort]
    · have hs := List.sorted_mergeSort
        (fun a b c => avgDescLe_trans a b c) avgDescLe_total rows
      have ht := List.Pairwise.sublist
        (List.take_sublist n (rows.mergeSort (fun a b => decide (b.2 ≤ a.2)))) hs
      exact ht.imp (fun h => of_decide_eq_true h)
    · intro v
      refine ⟨((rows.mergeSort (fun a b => decide (b.2 ≤ a.2))).drop n).filter
        (fun r => r.2 == v), ?_⟩
      rw [nlargest, ← List.filter_append, List.take_append_drop,
        mergeSort_filter_avg]
  · have hsorted : List.Pairwise
        (fun a b : String × ℚ => decide (b.2 ≤ a.2) = true)
        [("Alice", 9), ("Bob", 9), ("Carol", 5)] := by
      norm_num [List.pairwise_cons]
    rw [nlargest, List.mergeSort_of_sorted hsorted]
    rfl

theorem aggRowsFor_candidate_id (db : DB) (c : Candidate) (r : AggRow)
    (hr : r ∈ aggRowsFor db c) : r.candidate_id = c.id := by
  by_cases h : (db.scores.filter (fun s => s.candidate_id == c.id)).isEmpty
  · simp only [aggRowsFor, h, if_pos, List.mem_singleton] at hr
    rw [hr]
  · simp only [aggRowsFor, h, Bool.false_eq_true, if_neg, not_false_iff,
      List.mem_map] at hr
    obtain ⟨m, _, hrm⟩ := hr
    rw [← hrm]

theorem aggRowsFor_no_scores (db : DB) (c : Candidate)
    (h : db.scores.filter (fun s => s.candidate_id == c.id) = []) :
    aggRowsFor db c =
      [{ candidate_id := c.id, name := c.name, metric := none,
         avg_value := none }] := by
  simp [aggRowsFor, h]

theorem aggRowsFor_metric_mem (db : DB) (c : Candidate) (m : String)
    (h : m ∈ (db.scores.filter (fun s => s.candidate_id == c.id)).map
        (fun s => s.metric)) :
    { candidate_id := c.id, name := c.name, metric := some m,
      avg_value := some (ratMean
        (((db.scores.filter (fun s => s.candidate_id == c.id)).filter
            (fun s => s.metric == m)).map (fun s => s.value))) } ∈
      aggRowsFor db c := by
  have hne : (db.scores.filter (fun s => s.candidate_id == c.id)).isEmpty
      = false := by
    rcases List.mem_map.mp h with ⟨s, hs, _⟩
    cases hfe : db.scores.filter (fun s => s.candidate_id == c.id) with
    | nil => rw [hfe] at hs; cases hs
    | cons a l => simp [hfe]
  simp only [aggRowsFor, hne, Bool.false_eq_true, if_neg, not_false_iff]
  exact List.mem_map.mpr ⟨m, List.mem_dedup.mpr h, rfl⟩

theorem agg_filter_eq (l : List Candidate) (db : DB) (c : Candidate)
    (hnd : (l.map Candidate.id).Nodup) (hc : c ∈ l) :
    (l.flatMap (aggRowsFor db)).filter (fun r => r.candidate_id == c.id) =
      aggRowsFor db c := by
  induction l with
  | nil => cases hc
  | cons a rest ih =>
    rw [List.flatMap_cons, List.filter_append]
    rw [List.map_cons, List.nodup_cons] at hnd
    rcases List.mem_cons.mp hc with hce | hcr
    · subst hce
      have h1 : (aggRowsFor db c).filter (fun r => r.candidate_id == c.id) =
          aggRowsFor db c := by
        rw [List.filter_eq_self]
        intro r hr
        simp [aggRowsFor_candidate_id db c r hr]
      have h2 : (rest.flatMap (aggRowsFor db)).filter
          (fun r => r.candidate_id == c.id) = [] := by
        rw [List.filter_eq_nil_iff]
        intro r hr
        rcases List.mem_flatMap.mp hr with ⟨b, hb, hrb⟩
        have hid : r.candidate_id = b.id := aggRowsFor_candidate_id db b r hrb
        have hbne : b.id ≠ c.id := by
          intro he
          exact hnd.1 (he ▸ List.mem_map.mpr ⟨b, hb, rfl⟩)
        simp [hid, hbne]
      rw [h1, h2, List.append_nil]
    · have hane : a.id ≠ c.id := by
        intro he
        exact hnd.1 (he.symm ▸ List.mem_map.mpr ⟨c, hcr, rfl⟩)
      have h1 : (aggRowsFor db a).filter (fun r => r.candidate_id == c.id)
          = [] := by
        rw [List.filter_eq_nil_iff]
        intro r hr
        have hid : r.candidate_id = a.id := aggRowsFor_candidate_id db a r hr
        simp [hid, hane]
      rw [h1, List.nil_append]
      exact ih hnd.2 hcr

/-- C4: get_aggregate_scores returns, for each (candidate, metric) pair
present among the session's score rows, the arithmetic mean of that
pair's values; and a candidate of the session with no score rows at all
is not omitted: it contributes exactly one row, with NULL metric and
NULL average. -/
theorem aggregate_scores_spec (db : DB) (sid : String) (c : Candidate)
    (hnd : (db.candidates.map Candidate.id).Nodup)
    (hc : c ∈ db.candidates) (hs : c.session_id = sid) :
    (∀ m : String,
      m ∈ (db.scores.filter (fun s => s.candidate_id == c.id)).map
          (fun s => s.metric) →
      { candidate_id := c.id, name := c.name, metric := some m,
        avg_value := some (ratMean
          (((db.scores.filter (fun s => s.candidate_id == c.id)).filter
              (fun s => s.metric == m)).map (fun s => s.value))) } ∈
        get_aggregate_scores db sid) ∧
    (db.scores.filter (fun s => s.candidate_id == c.id) = [] →
      (get_aggregate_scores db sid).filter
          (fun r => r.candidate_id == c.id) =
        [{ candidate_id := c.id, name := c.name, metric := none,
           avg_value := none }]) := by
  have hcf : c ∈ db.candidates.filter (fun x => x.session_id == sid) := by
    rw [List.mem_filter]
    exact ⟨hc, by simp [hs]⟩
  have hndf : ((db.candidates.filter (fun x => x.session_id == sid)).map
      Candidate.id).Nodup :=
    List.Nodup.sublist (List.Sublist.map _ (List.filter_sublist _)) hnd
  constructor
  · intro m hm
    exact List.mem_flatMap.mpr ⟨c, hcf, aggRowsFor_metric_mem db c m hm⟩
  · intro hnone
    unfold get_aggregate_scores
    rw [agg_filter_eq _ db c hndf hcf, aggRowsFor_no_scores db c hnone]

/-- Candidate row used by the zero-score aggregate witness. -/
def jane : Candidate :=
  { id := "c1", session_id := "s1", name := "Jane", email := none,
    phone := none, position := none, experience_years := none, notes := none }

/-- Database with one session and one candidate that has no scores. -/
def noScoresDB : DB :=
  { sessions := [{ id := "s1", name := "Round 1", interviewer := none,
                   date := none, notes := none }],
    candidates := [jane], scores := [], nextUuid := 2, nextScoreId := 1 }

theorem aggregate_scores_spec_witness :
    (get_aggregate_scores noScoresDB "s1").filter
        (fun r => r.candidate_id == jane.id) =
      [{ candidate_id := jane.id, name := jane.name, metric := none,
         avg_value := none }] :=
  (aggregate_scores_spec noScoresDB "s1" jane (by decide) (by decide) rfl).2 rfl
